import Mathlib

/-!
# Verification of the Meraki festival site core

Shallow embedding of the two "core" parts of the repository identified by the
specification: the contact-form Submission Workflow (`ContactMinecraft.onSubmit`
and the react-hook-form field registrations in `src/unnamed/part_004`) and the
Content Registry / event-detail lookup (`src/src/constants/eventsData.js`,
`src/src/pages/EventDetails.jsx`), plus the page Transition Sequencer
(`src/src/components/AnimatedRoutes.jsx` with `AnimatePresence mode="wait"`).
-/

namespace Meraki

/-! ## Submission Workflow data model -/

/-- The four string fields collected by the contact form
(`register("name" | "email" | "subject" | "message")` in `ContactMinecraft`). -/
structure FormData where
  name : String
  email : String
  subject : String
  message : String
deriving DecidableEq

/-- The three environment-provided EmailJS credentials
(`VITE_EMAILJS_SERVICE_ID`, `VITE_EMAILJS_TEMPLATE_ID`, `VITE_EMAILJS_PUBLIC_KEY`).
An env var read yields either a string or `undefined`; we model the latter as
`none`. -/
structure EmailConfig where
  serviceId : Option String
  templateId : Option String
  publicKey : Option String
deriving DecidableEq

/-- JS truthiness test `!x` applied to a credential: true when the value is
`undefined` or the empty string (both are falsy in JS). -/
def credMissing : Option String → Bool
  | none => true
  | some s => s.isEmpty

/-- The gate `!SERVICE_ID || !TEMPLATE_ID || !PUBLIC_KEY` in `onSubmit`:
when true, `emailjs.sendForm` is skipped with only a `console.warn`. -/
def configMissing (cfg : EmailConfig) : Bool :=
  credMissing cfg.serviceId || credMissing cfg.templateId || credMissing cfg.publicKey

/-! ## Validation rules (react-hook-form `register` options) -/

/-- A character admitted by the character class `[^\s@]` of the email pattern:
neither whitespace nor `@`. -/
def isEmailChar (c : Char) : Bool :=
  !c.isWhitespace && c ≠ '@'

/-- The anchored email pattern `/^[^\s@]+@[^\s@]+\.[^\s@]+$/` registered on the
email field: the whole string decomposes as `a ++ "@" ++ b ++ "." ++ c` with
`a`, `b`, `c` nonempty strings of non-whitespace, non-`@` characters. We test
all positions `i` (the `@`) and `j` (the `.`) of that decomposition. -/
def emailMatches (s : String) : Bool :=
  let cs := s.toList
  (List.range cs.length).any fun i =>
    (List.range cs.length).any fun j =>
      decide (1 ≤ i) && decide (i + 2 ≤ j) && decide (j + 2 ≤ cs.length) &&
      (cs.getD i ' ' == '@') && (cs.getD j ' ' == '.') &&
      (cs.take i).all isEmailChar &&
      ((cs.drop (i + 1)).take (j - (i + 1))).all isEmailChar &&
      (cs.drop (j + 1)).all isEmailChar

/-- `register("name", { required: "Name is required", minLength: { value: 2,
message: "Too short" } })`. -/
def nameError (s : String) : Option String :=
  if s.isEmpty then some "Name is required"
  else if s.length < 2 then some "Too short"
  else none

/-- `register("email", { required: "Email is required", pattern: { value:
..., message: "Enter a valid email" } })`. -/
def emailError (s : String) : Option String :=
  if s.isEmpty then some "Email is required"
  else if emailMatches s then none
  else some "Enter a valid email"

/-- `register("subject", { required: "Subject is required", minLength:
{ value: 3, message: "Too short" } })`. -/
def subjectError (s : String) : Option String :=
  if s.isEmpty then some "Subject is required"
  else if s.length < 3 then some "Too short"
  else none

/-- `register("message", { required: "Message is required", minLength:
{ value: 8, message: "Too short" } })`. -/
def messageError (s : String) : Option String :=
  if s.isEmpty then some "Message is required"
  else if s.length < 8 then some "Too short"
  else none

/-- Tag an optional validation message with its field name, as react-hook-form
collects `errors.name`, `errors.email`, ... -/
def optErr (field : String) : Option String → List (String × String)
  | some m => [(field, m)]
  | none => []

/-- The field-level validation errors react-hook-form computes before
`handleSubmit` decides whether to invoke `onSubmit`. -/
def fieldErrors (d : FormData) : List (String × String) :=
  optErr "name" (nameError d.name) ++ optErr "email" (emailError d.email) ++
    optErr "subject" (subjectError d.subject) ++ optErr "message" (messageError d.message)

/-! ## The submission itself -/

/-- Outcome of the external `emailjs.sendForm` call, when it is attempted:
the promise either resolves or rejects (throws). -/
inductive DeliveryResult
  | ok
  | error
deriving DecidableEq

/-- One record of the `"contacts"` backup log in localStorage:
`{ ...data, createdAt: new Date().toISOString() }`. -/
structure BackupEntry where
  name : String
  email : String
  subject : String
  message : String
  createdAt : String
deriving DecidableEq

/-- The object pushed onto the backup log by `onSubmit`. -/
def backupEntry (d : FormData) (now : String) : BackupEntry :=
  { name := d.name, email := d.email, subject := d.subject,
    message := d.message, createdAt := now }

/-- Terminal condition of one submission attempt. -/
inductive Outcome
  | invalid  -- validation failed: handleSubmit never invoked onSubmit
  | noop     -- the falsy-field guard at the top of onSubmit returned early
  | success  -- the try block ran to completion (backup appended, form reset)
  | error    -- sendForm threw: the catch branch alerted, form retained
deriving DecidableEq

/-- What one run of the workflow leaves behind. -/
structure SubmitResult where
  outcome : Outcome
  log : List BackupEntry
  formCleared : Bool
  deliveryAttempted : Bool
deriving DecidableEq

/-- The guard `if (!data.name || !data.email || !data.subject || !data.message)
return;` at the top of `onSubmit` (JS falsiness of a string is emptiness). -/
def hasFalsyField (d : FormData) : Bool :=
  d.name.isEmpty || d.email.isEmpty || d.subject.isEmpty || d.message.isEmpty

/-- Shallow embedding of `onSubmit` in `ContactMinecraft`
(src/unnamed/part_004, lines 32-58), parameterised by the prior backup log,
the current timestamp string and the outcome of the external delivery call.

Control flow of the source: after the falsy-field guard, the `try` block
first awaits `emailjs.sendForm` (unless the configuration gate skips it),
THEN reads the `"contacts"` log, pushes the new entry and writes it back,
waits 700ms and calls `reset()`. The `catch` branch only alerts. In
particular a throwing `sendForm` leaves the `try` block before the backup
push is reached, so no entry is appended on the error path. -/
def onSubmit (cfg : EmailConfig) (d : FormData) (now : String)
    (delivery : DeliveryResult) (log : List BackupEntry) : SubmitResult :=
  if hasFalsyField d then
    { outcome := .noop, log := log, formCleared := false, deliveryAttempted := false }
  else if !configMissing cfg && delivery == .error then
    { outcome := .error, log := log, formCleared := false, deliveryAttempted := true }
  else
    { outcome := .success, log := log ++ [backupEntry d now],
      formCleared := true, deliveryAttempted := !configMissing cfg }

/-- `handleSubmit(onSubmit)`: react-hook-form runs the registered validators
and invokes `onSubmit` only when every field validates; otherwise it surfaces
the per-field messages and performs nothing else. Returns the field errors
together with the run result. -/
def submitWorkflow (cfg : EmailConfig) (d : FormData) (now : String)
    (delivery : DeliveryResult) (log : List BackupEntry) :
    List (String × String) × SubmitResult :=
  let errs := fieldErrors d
  if errs.isEmpty then
    (errs, onSubmit cfg d now delivery log)
  else
    (errs, { outcome := .invalid, log := log, formCleared := false,
             deliveryAttempted := false })

/-! ## Content Registry (src/src/constants/eventsData.js) -/

/-- One entry of the `sponsors` array attached to an event detail record.
`institution` is rendered conditionally in `EventDetails.jsx` and is absent
from the data, so it is optional. -/
structure Sponsor where
  name : String
  logo : String
  type : String
  institution : Option String := none
deriving DecidableEq

/-- One element of the `events` array exported for the homepage tabs. The
`image` import is modelled by the asset path named in the import statement. -/
structure EventInfo where
  id : Nat
  title : String
  slug : String
  image : String
  description : String
  isElite : Bool
  comingSoon : Bool
deriving DecidableEq

/-- A value of the `eventDetailsData` map (and the not-found fallback object
built in `EventDetails.jsx`). JS objects are duck-typed: fields a given
record does not define are `none` (reading them yields `undefined`). -/
structure EventDetail where
  title : Option String
  price : Option String
  tags : Option (List String)
  badge : Option String
  description : Option String
  fullDescription : Option String
  eventDate : Option String
  teamSize : Option String
  venue : Option String
  contact : Option String
  registerLink : Option String
  buttonText : Option String := none
  sponsors : Option (List Sponsor) := none
deriving DecidableEq

/-- First element of the `events` array (eventsData.js lines 31-68). -/
def skycircuitInfo : EventInfo :=
  { id := 1, title := "SKYCIRCUIT", slug := "skycircuit",
    image := "../assets/sky_circuit.webp",
    description := "SkyCircuit Showcase is a high-energy drone and aeromodelling showcase featuring cutting-edge UAVs, aerobatic RC aircraft, and live flight demonstrations.",
    isElite := true, comingSoon := false }

/-- Second element of the `events` array. -/
def robodriveInfo : EventInfo :=
  { id := 2, title := "ROBODRIVE", slug := "robodrive",
    image := "../assets/robo_drive.webp",
    description := "RoboDrive is an action-packed robotics showcase featuring autonomous and remote-controlled vehicles demonstrating speed, control, and intelligent navigation.",
    isElite := true, comingSoon := true }

/-- Third element of the `events` array. -/
def hackTheThroneInfo : EventInfo :=
  { id := 3, title := "HACK-THE-THRONE", slug := "hack-the-throne",
    image := "../assets/hack_the_throne.webp",
    description := "24-hour high-intensity hackathon where innovators, coders, and problem-solvers collaborate to build impactful tech solutions.",
    isElite := true, comingSoon := true }

/-- Fourth element of the `events` array. -/
def arenaxInfo : EventInfo :=
  { id := 4, title := "ARENAX", slug := "arenax",
    image := "../assets/arena_x.webp",
    description := "ArenaX Game Carnival is a high-energy esports event featuring competitive battles in BGMI, Clash Royale, and Valorant.",
    isElite := true, comingSoon := true }

/-- The `events` array (eventsData.js lines 31-68), in source order. -/
def events : List EventInfo :=
  [skycircuitInfo, robodriveInfo, hackTheThroneInfo, arenaxInfo]

/-- The uppercase form of a slug: every character uppercased (the
slug-to-title correspondence the spec states for the registry keys). -/
def upperSlug (s : String) : String :=
  String.mk (s.data.map Char.toUpper)

/-- `eventDetailsData["robodrive"]`. -/
def robodriveDetail : EventDetail :=
  { title := some "ROBODRIVE",
    price := some "₹19000/-",
    tags := some ["Robotics", "Engineering", "Competition", "Innovation"],
    badge := some "FLAGSHIP EVENT",
    description := some "RoboDrive is an action-packed robotics showcase featuring autonomous and remote-controlled vehicles...",
    fullDescription := some "RoboDrive is an action-packed robotics showcase featuring autonomous and remote-controlled vehicles demonstrating speed, control, and intelligent navigation. The event highlights innovation in robotics, mobility systems, and real-world engineering through thrilling live runs and demos.",
    eventDate := some "February 15-17, 2026",
    teamSize := some "2-4 Members",
    venue := some "IIIT Una Campus",
    contact := some "events@meraki.com",
    registerLink := some "#" }

/-- `eventDetailsData["skycircuit"]`. -/
def skycircuitDetail : EventDetail :=
  { title := some "SKYCIRCUIT",
    price := some "",
    tags := some ["Aeromodelling", "Drones", "Aircrafts", "FPVs"],
    badge := some "POPULAR EVENT",
    description := some "SkyCircuit is a high-impact technical exhibition designed to bring together institute drone teams, research groups, and drone technology startups on a single platform...",
    fullDescription := some "SkyCircuit is a high-impact technical exhibition designed to bring together institute drone teams, research groups, and drone technology startups on a single platform. The event aims to highlight the rapid advancements in UAV technology, foster knowledge exchange between academia and industry, and inspire students through real-world applications of drones. Participating institute drone teams will present their indigenously developed drones and aircrafts , covering areas such as autonomous navigation, swarm technology, computer vision, payload delivery, surveillance, and disaster management. Drone tech startups will showcase cutting-edge products, R&D breakthroughs, and commercial use cases in sectors like defense, agriculture, mapping, logistics, and smart infrastructure. Beyond static displays, the showcase emphasizes live pilot skill demonstrations, where expert pilots and student teams execute precision maneuvers . The event also features experience-sharing sessions, allowing participants to gain insights into drone design, regulations, startup journeys, challenges in field deployment, and future trends in UAV ecosystems.",
    eventDate := some "5th February 2026",
    teamSize := some "Open",
    venue := some "Open Ground, IIIT Una",
    contact := some "meraki@iiitu.ac.in | +91 7017488532",
    registerLink := some "mailto:meraki@iiitu.ac.in?subject=Sky Circuit Registration&body=Hello, I would like to showcase something cool at Sky Circuit event",
    buttonText := some "JOIN US",
    sponsors := some
      [ { name := "CAIR, IIT Mandi", logo := "../assets/sponsors/iitlogo.webp", type := "Title Sponsor" },
        { name := "AEROSTAR", logo := "../assets/sponsors/aerostar.webp", type := "Co-Sponsor" } ] }

/-- `eventDetailsData["hack-the-throne"]`. -/
def hackTheThroneDetail : EventDetail :=
  { title := some "HACK-THE-THRONE",
    price := some "₹10000/-",
    tags := some ["Coding", "Hackathon", "Innovation", "Tech"],
    badge := some "COMPETITIVE",
    description := some "24-hour high-intensity hackathon where innovators, coders, and problem-solvers collaborate...",
    fullDescription := some "24-hour high-intensity hackathon where innovators, coders, and problem-solvers collaborate to build impactful tech solutions. Participants compete against time to ideate, design, and prototype bold ideas that challenge the status quo and claim the throne.",
    eventDate := some "February 17, 2026",
    teamSize := some "1-2 Members",
    venue := some "Computer Lab, IIIT Una",
    contact := some "tech@meraki.com",
    registerLink := some "#" }

/-- `eventDetailsData["arenax"]`. -/
def arenaxDetail : EventDetail :=
  { title := some "ARENAX",
    price := some "₹12000/-",
    tags := some ["Esports", "Gaming", "BGMI", "Valorant"],
    badge := some "SPECIAL EVENT",
    description := some "ArenaX Game Carnival is a high-energy esports event featuring competitive battles...",
    fullDescription := some "ArenaX Game Carnival is a high-energy esports event featuring competitive battles in BGMI, Clash Royale, and Valorant. Gamers compete across mobile and PC arenas, showcasing strategy, reflexes, and teamwork in an intense, action-packed tournament environment.",
    eventDate := some "February 15-17, 2026",
    teamSize := some "2-5 Members",
    venue := some "Auditorium, IIIT Una",
    contact := some "innovation@meraki.com",
    registerLink := some "#" }

/-- The `eventDetailsData` object (eventsData.js lines 89-147), as an
association list keyed by slug, in source order. -/
def eventDetailsData : List (String × EventDetail) :=
  [ ("robodrive", robodriveDetail),
    ("skycircuit", skycircuitDetail),
    ("hack-the-throne", hackTheThroneDetail),
    ("arenax", arenaxDetail) ]

/-- The fallback object built inline in `EventDetails.jsx` (lines 24-36) when
`eventDetailsData[eventId]` is `undefined`. The `price` string reproduces the
bytes in the source file (which are mojibake for a rupee sign). -/
def notFoundEvent : EventDetail :=
  { title := some "Event Not Found",
    price := some "â‚¹0/-",
    tags := some [],
    badge := some "EVENT",
    description := some "Event details not available.",
    fullDescription := some "Event details not available.",
    eventDate := some "TBA",
    teamSize := some "TBA",
    venue := some "TBA",
    contact := some "events@meraki.com",
    registerLink := some "#" }

/-- The record the page operates on whenever `eventId` is not the name of an
inherited `Object.prototype` member: own-key lookup on the registry, falling
back to the placeholder. This is NOT the full semantics of
`eventDetailsData[eventId] || {…}` — JS bracket lookup also consults the
prototype chain, which `bracketLookup`/`eventDataAt` below model; on own keys
and on unknown non-member keys the two agree
(`eventDataAt_eq_getBySlug`). -/
def getBySlug (s : String) : EventDetail :=
  match eventDetailsData.lookup s with
  | some r => r
  | none => notFoundEvent

/-- The named members every object literal inherits from `Object.prototype`:
for one of these keys, bracket lookup on `eventDetailsData` yields the
inherited member — a function, or for the `__proto__` accessor the prototype
object itself — rather than `undefined`. -/
def objectPrototypeMembers : List String :=
  ["constructor", "hasOwnProperty", "isPrototypeOf", "propertyIsEnumerable",
   "toLocaleString", "toString", "valueOf",
   "__defineGetter__", "__defineSetter__", "__lookupGetter__", "__lookupSetter__",
   "__proto__"]

/-- A value `eventDetailsData[eventId]` can produce in JS: one of the
registry's own records, a value inherited from `Object.prototype`, or
`undefined`. -/
inductive JsLookup
  | record (r : EventDetail)
  | inherited (name : String)
  | undefined
deriving DecidableEq

/-- JS bracket lookup `eventDetailsData[eventId]` on the object literal: an
own key yields its record; otherwise the prototype chain is consulted, so a
member name of `Object.prototype` yields the inherited member; every other
key yields `undefined`. -/
def bracketLookup (s : String) : JsLookup :=
  match eventDetailsData.lookup s with
  | some r => .record r
  | none => if s ∈ objectPrototypeMembers then .inherited s else .undefined

/-- JS truthiness of such a value: registry records and inherited members
(functions, or `Object.prototype` itself for `__proto__`) are truthy;
`undefined` is falsy. -/
def jsTruthy : JsLookup → Bool
  | .undefined => false
  | _ => true

/-- Faithful model of `const eventData = eventDetailsData[eventId] || {…}`
(`EventDetails.jsx` line 24): the bracket-lookup result when truthy,
otherwise the placeholder. For an inherited `Object.prototype` member name
the truthy inherited value — not the placeholder — is what the page gets. -/
def eventDataAt (s : String) : JsLookup :=
  if jsTruthy (bracketLookup s) then bracketLookup s else .record notFoundEvent

/-- Reading `.title` off the page's value: defined only on a registry record
or the placeholder; on an inherited member or `undefined` it is
`undefined`. -/
def titleOf : JsLookup → Option String
  | .record r => r.title
  | _ => none

/-- Reading `.description` off the page's value. -/
def descriptionOf : JsLookup → Option String
  | .record r => r.description
  | _ => none

/-- Reading `.tags` off the page's value, as `eventData.tags.map` at
`EventDetails.jsx` line 164 does: `none` means the read yields `undefined`
and the `.map` call throws. -/
def tagsOf : JsLookup → Option (List String)
  | .record r => r.tags
  | _ => none

/-! ## Submission state machine (the `isSubmitting || isSent` discipline)

`ContactMinecraft` renders the submit button with
`disabled={isSubmitting || isSent}`; `onSubmit` calls `setIsSent(true)`
before any awaited work and the `finally` branch re-enables the control only
via `setTimeout(() => setIsSent(false), 1100)` after the attempt settles. We
embed the resulting per-form submission lifecycle as a four-state machine. -/

/-- The SubmissionState of the form instance. -/
inductive SubState
  | idle
  | submitting
  | success
  | error
deriving DecidableEq

/-- Events driving one form instance: a click on the submit control with
valid input, settlement of the in-flight attempt (resolve or reject), and the
`finally` feedback timer that re-enables the control. -/
inductive SubEvent
  | submitClick
  | settleOk
  | settleErr
  | feedbackTimer
deriving DecidableEq

/-- `disabled={isSubmitting || isSent}`: `isSent` is raised at the start of
`onSubmit` and lowered only by the feedback timer after settlement, so the
control is disabled in every state except idle. -/
def submitDisabled : SubState → Bool
  | .idle => false
  | _ => true

/-- One step of the submission lifecycle. A `submitClick` is effective only
in the idle state, because in every other state the control is disabled; all
other transitions follow the settle/timer flow of `onSubmit`. -/
def stepSub : SubState → SubEvent → SubState
  | .idle, .submitClick => .submitting
  | .submitting, .settleOk => .success
  | .submitting, .settleErr => .error
  | .success, .feedbackTimer => .idle
  | .error, .feedbackTimer => .idle
  | s, _ => s

/-! ## Transition Sequencer (src/src/components/AnimatedRoutes.jsx)

Modelled from the spec: the sequencer is `AnimatePresence mode="wait"` keyed
by `location.pathname`, with every page wrapped in `PageWrapper` whose
variants define the enter and exit animations. The wait semantics itself is
implemented inside the framer-motion library, not in this repository; the
repository's own doc comments state it as "mode='wait': New page waits for
current page exit animation" / "Ensures exit animation completes before enter
begins", which matches the spec's Transition Sequencer contract. We embed
that contract as a labelled state machine over pathname keys. -/

/-- Sequencer phase: quiescent on one page, running the exit animation of the
old page (with the navigation target remembered), or running the enter
animation of the new page. -/
inductive SeqPhase
  | showing (p : String)
  | exiting (old target : String)
  | entering (p : String)
deriving DecidableEq

/-- Events seen by the sequencer: a navigation trigger (a change of
`location.pathname`) and the completion callbacks of the two animation
phases. -/
inductive NavEvent
  | navigate (target : String)
  | exitDone
  | enterDone
deriving DecidableEq

/-- Observable phase boundaries emitted while sequencing. -/
inductive PhaseAction
  | startExit (p : String)
  | completeExit (p : String)
  | startEnter (p : String)
  | completeEnter (p : String)
deriving DecidableEq

/-- Modelled from the spec: the wait-mode page sequencing performed by the
framer-motion library for the `AnimatePresence mode="wait"` configuration in
`AnimatedRoutes.jsx` (the library is not part of this repository; the
repository only configures it). One sequencer step, returning the next phase
and the boundary actions emitted during that step, in order. A navigation to
the pathname already shown is keyed identically and triggers nothing. A navigation arriving while
an exit runs merely retargets the pending enter (the exit continues). A
navigation arriving while an enter runs cuts that enter short and starts the
exit of the partially entered page — `mode="wait"` never animates two pages
at once. The enter of the target starts only in the `exitDone` step, at the
moment the exit completes. -/
def stepSeq : SeqPhase → NavEvent → SeqPhase × List PhaseAction
  | .showing p, .navigate t =>
      if t = p then (.showing p, []) else (.exiting p t, [.startExit p])
  | .showing p, _ => (.showing p, [])
  | .exiting o _, .navigate t2 => (.exiting o t2, [])
  | .exiting o t, .exitDone => (.entering t, [.completeExit o, .startEnter t])
  | .exiting o t, .enterDone => (.exiting o t, [])
  | .entering p, .navigate t =>
      if t = p then (.entering p, []) else (.exiting p t, [.completeEnter p, .startExit p])
  | .entering p, .exitDone => (.entering p, [])
  | .entering p, .enterDone => (.showing p, [.completeEnter p])

/-- Run the sequencer over a whole event list, concatenating the emitted
action traces. -/
def runSeq : SeqPhase → List NavEvent → SeqPhase × List PhaseAction
  | ph, [] => (ph, [])
  | ph, e :: es =>
      let s := stepSeq ph e
      let r := runSeq s.1 es
      (r.1, s.2 ++ r.2)

/-- Which animation phase (if any) is currently open. -/
inductive OpenPhase
  | nothingOpen
  | exitOpen
  | enterOpen
deriving DecidableEq

/-- The open phase corresponding to a sequencer state. -/
def phaseKind : SeqPhase → OpenPhase
  | .showing _ => .nothingOpen
  | .exiting _ _ => .exitOpen
  | .entering _ => .enterOpen

/-- Checks that an action trace is properly sequenced, given which phase is
open when the trace starts. The accepted traces are exactly the prefixes of
`(startExit · completeExit · startEnter · completeEnter)*` patterns: at most
one phase is ever open (exit and enter never overlap, and no two enter
phases are open concurrently), a `startEnter` occurs only immediately after
a `completeExit` (the enter of the new page never starts before the exit of
the previous page has signalled completion), and an open phase may only be
closed by its own completion action. -/
def wellSequenced : OpenPhase → List PhaseAction → Bool
  | _, [] => true
  | .nothingOpen, .startExit _ :: r => wellSequenced .exitOpen r
  | .exitOpen, .completeExit _ :: .startEnter _ :: r => wellSequenced .enterOpen r
  | .enterOpen, .completeEnter _ :: r => wellSequenced .nothingOpen r
  | _, _ => false

/-! ## Concrete inputs used by witnesses and counterexamples -/

/-- The valid submission of the spec's test vector (message text without the
apostrophe of the original, which changes nothing about validity). -/
def steveData : FormData :=
  { name := "Steve", email := "steve@minecraft.net", subject := "Collab",
    message := "Lets build something" }

/-- The invalid submission of the spec's test vector (empty name). -/
def invalidData : FormData :=
  { name := "", email := "a@b.com", subject := "Hi there", message := "Hello world" }

/-- A configuration with all three delivery credentials present. -/
def fullConfig : EmailConfig :=
  { serviceId := some "service_x", templateId := some "template_x", publicKey := some "key_x" }

/-- A configuration with every delivery credential absent. -/
def emptyConfig : EmailConfig :=
  { serviceId := none, templateId := none, publicKey := none }

/-- A fixed timestamp string standing for `new Date().toISOString()`. -/
def ts0 : String := "2026-02-05T10:00:00.000Z"

/-! ## Helper lemmas -/

lemma optErr_nil {f : String} {o : Option String} (h : optErr f o = []) : o = none := by
  cases o with
  | none => rfl
  | some m => simp [optErr] at h

lemma fieldErrors_nil (d : FormData) (h : fieldErrors d = []) :
    nameError d.name = none ∧ emailError d.email = none ∧
      subjectError d.subject = none ∧ messageError d.message = none := by
  rw [fieldErrors] at h
  rcases List.append_eq_nil.mp h with ⟨h123, h4⟩
  rcases List.append_eq_nil.mp h123 with ⟨h12, h3⟩
  rcases List.append_eq_nil.mp h12 with ⟨h1, h2⟩
  exact ⟨optErr_nil h1, optErr_nil h2, optErr_nil h3, optErr_nil h4⟩

lemma fieldErrors_nil_no_falsy (d : FormData) (h : fieldErrors d = []) :
    hasFalsyField d = false := by
  obtain ⟨h1, h2, h3, h4⟩ := fieldErrors_nil d h
  have e1 : d.name.isEmpty = false := by
    cases hb : d.name.isEmpty with
    | false => rfl
    | true => simp [nameError, hb] at h1
  have e2 : d.email.isEmpty = false := by
    cases hb : d.email.isEmpty with
    | false => rfl
    | true => simp [emailError, hb] at h2
  have e3 : d.subject.isEmpty = false := by
    cases hb : d.subject.isEmpty with
    | false => rfl
    | true => simp [subjectError, hb] at h3
  have e4 : d.message.isEmpty = false := by
    cases hb : d.message.isEmpty with
    | false => rfl
    | true => simp [messageError, hb] at h4
  simp [hasFalsyField, e1, e2, e3, e4]

/-- Every possible value of the event-detail lookup: one of the four registry
records or the fallback. -/
lemma getBySlug_cases (s : String) :
    getBySlug s = robodriveDetail ∨ getBySlug s = skycircuitDetail ∨
      getBySlug s = hackTheThroneDetail ∨ getBySlug s = arenaxDetail ∨
      getBySlug s = notFoundEvent := by
  by_cases h1 : s = "robodrive"
  · exact Or.inl (by simp [getBySlug, eventDetailsData, List.lookup, h1])
  · by_cases h2 : s = "skycircuit"
    · exact Or.inr (Or.inl (by
        simp [getBySlug, eventDetailsData, List.lookup, h2,
          beq_eq_false_iff_ne.mpr h1]))
    · by_cases h3 : s = "hack-the-throne"
      · exact Or.inr (Or.inr (Or.inl (by
          simp [getBySlug, eventDetailsData, List.lookup, h3,
            beq_eq_false_iff_ne.mpr h1, beq_eq_false_iff_ne.mpr h2])))
      · by_cases h4 : s = "arenax"
        · exact Or.inr (Or.inr (Or.inr (Or.inl (by
            simp [getBySlug, eventDetailsData, List.lookup, h4,
              beq_eq_false_iff_ne.mpr h1, beq_eq_false_iff_ne.mpr h2,
              beq_eq_false_iff_ne.mpr h3]))))
        · exact Or.inr (Or.inr (Or.inr (Or.inr (by
            simp [getBySlug, eventDetailsData, List.lookup,
              beq_eq_false_iff_ne.mpr h1, beq_eq_false_iff_ne.mpr h2,
              beq_eq_false_iff_ne.mpr h3, beq_eq_false_iff_ne.mpr h4]))))

/-- Away from the inherited `Object.prototype` member names, the full JS
lookup-with-fallback agrees with the own-key lookup `getBySlug`. -/
lemma eventDataAt_eq_getBySlug (s : String) (hp : s ∉ objectPrototypeMembers) :
    eventDataAt s = JsLookup.record (getBySlug s) := by
  cases hl : eventDetailsData.lookup s with
  | some r => simp [eventDataAt, bracketLookup, jsTruthy, hl, getBySlug]
  | none => simp [eventDataAt, bracketLookup, jsTruthy, hl, hp, getBySlug]

/-- The sequencer invariant behind C2: starting from any phase, the emitted
action trace is well sequenced for that phase's open-phase kind. -/
lemma runSeq_wellSequenced (es : List NavEvent) :
    ∀ ph : SeqPhase, wellSequenced (phaseKind ph) (runSeq ph es).2 = true := by
  induction es with
  | nil => intro ph; cases ph <;> rfl
  | cons e es ih =>
    intro ph
    cases ph with
    | showing p =>
      cases e with
      | navigate t =>
        by_cases ht : t = p
        · simpa [runSeq, stepSeq, ht, phaseKind] using ih (.showing p)
        · simpa [runSeq, stepSeq, ht, wellSequenced, phaseKind] using ih (.exiting p t)
      | exitDone => simpa [runSeq, stepSeq, phaseKind] using ih (.showing p)
      | enterDone => simpa [runSeq, stepSeq, phaseKind] using ih (.showing p)
    | exiting o t =>
      cases e with
      | navigate t2 => simpa [runSeq, stepSeq, phaseKind] using ih (.exiting o t2)
      | exitDone => simpa [runSeq, stepSeq, wellSequenced, phaseKind] using ih (.entering t)
      | enterDone => simpa [runSeq, stepSeq, phaseKind] using ih (.exiting o t)
    | entering p =>
      cases e with
      | navigate t =>
        by_cases ht : t = p
        · simpa [runSeq, stepSeq, ht, phaseKind] using ih (.entering p)
        · simpa [runSeq, stepSeq, ht, wellSequenced, phaseKind] using ih (.exiting p t)
      | exitDone => simpa [runSeq, stepSeq, phaseKind] using ih (.entering p)
      | enterDone => simpa [runSeq, stepSeq, wellSequenced, phaseKind] using ih (.showing p)

/-! ## Claim theorems -/

/-- C3: for every valid submission with delivery configuration present and
remote delivery succeeding, the workflow ends in the Success state, exactly
one new entry is appended to the end of the local backup log carrying exactly
the submitted name, email, subject and message plus the createdAt timestamp,
and the form fields are cleared. -/
theorem submit_valid_config_ok (cfg : EmailConfig) (d : FormData) (now : String)
    (log : List BackupEntry) (hv : fieldErrors d = []) (hc : configMissing cfg = false) :
    (submitWorkflow cfg d now .ok log).1 = [] ∧
    (submitWorkflow cfg d now .ok log).2.outcome = .success ∧
    (submitWorkflow cfg d now .ok log).2.log = log ++ [backupEntry d now] ∧
    (submitWorkflow cfg d now .ok log).2.formCleared = true ∧
    (submitWorkflow cfg d now .ok log).2.deliveryAttempted = true := by
  have hf := fieldErrors_nil_no_falsy d hv
  simp [submitWorkflow, onSubmit, hv, hf, hc]

/-- Witness for C3 at the spec's test vector. -/
theorem submit_valid_config_ok_witness :
    (submitWorkflow fullConfig steveData ts0 .ok []).1 = [] ∧
    (submitWorkflow fullConfig steveData ts0 .ok []).2.outcome = .success ∧
    (submitWorkflow fullConfig steveData ts0 .ok []).2.log = [] ++ [backupEntry steveData ts0] ∧
    (submitWorkflow fullConfig steveData ts0 .ok []).2.formCleared = true ∧
    (submitWorkflow fullConfig steveData ts0 .ok []).2.deliveryAttempted = true :=
  submit_valid_config_ok fullConfig steveData ts0 [] (by decide) (by decide)

/-- C1 counterexample: at the spec's valid test vector with configuration
present and the delivery collaborator throwing, the run does end in Error
with the form retained, but the backup log stays empty — NOT the "exactly
one backup entry still appended" the claim asserts. -/
theorem submit_delivery_error_cex :
    (submitWorkflow fullConfig steveData ts0 .error []).2.outcome = .error ∧
    (submitWorkflow fullConfig steveData ts0 .error []).2.formCleared = false ∧
    (submitWorkflow fullConfig steveData ts0 .error []).2.log = [] ∧
    (submitWorkflow fullConfig steveData ts0 .error []).2.log.length ≠ 1 := by
  decide

/-- C1 (amended): for every valid submission with delivery configuration
present whose remote delivery call raises, the workflow ends in the Error
state and the form fields are retained, but NO backup entry is appended for
that submission — the backup append is sequenced after the remote call
inside the same try block, so the throw skips it. -/
theorem submit_delivery_error (cfg : EmailConfig) (d : FormData) (now : String)
    (log : List BackupEntry) (hv : fieldErrors d = []) (hc : configMissing cfg = false) :
    (submitWorkflow cfg d now .error log).2.outcome = .error ∧
    (submitWorkflow cfg d now .error log).2.formCleared = false ∧
    (submitWorkflow cfg d now .error log).2.log = log ∧
    (submitWorkflow cfg d now .error log).2.deliveryAttempted = true := by
  have hf := fieldErrors_nil_no_falsy d hv
  simp [submitWorkflow, onSubmit, hv, hf, hc]

/-- Witness for the amended C1 at the spec's test vector. -/
theorem submit_delivery_error_witness :
    (submitWorkflow fullConfig steveData ts0 .error []).2.outcome = .error ∧
    (submitWorkflow fullConfig steveData ts0 .error []).2.formCleared = false ∧
    (submitWorkflow fullConfig steveData ts0 .error []).2.log = [] ∧
    (submitWorkflow fullConfig steveData ts0 .error []).2.deliveryAttempted = true :=
  submit_delivery_error fullConfig steveData ts0 [] (by decide) (by decide)

/-- C5: for every valid submission when any of the three delivery
credentials is absent, the remote attempt is skipped entirely as a non-fatal
no-op: whatever the collaborator would have done, no delivery is attempted,
exactly one backup entry is still appended and the workflow ends in Success
with the form cleared. -/
theorem submit_config_absent (cfg : EmailConfig) (d : FormData) (now : String)
    (delivery : DeliveryResult) (log : List BackupEntry)
    (hv : fieldErrors d = []) (hc : configMissing cfg = true) :
    (submitWorkflow cfg d now delivery log).2.outcome = .success ∧
    (submitWorkflow cfg d now delivery log).2.deliveryAttempted = false ∧
    (submitWorkflow cfg d now delivery log).2.log = log ++ [backupEntry d now] ∧
    (submitWorkflow cfg d now delivery log).2.formCleared = true := by
  have hf := fieldErrors_nil_no_falsy d hv
  simp [submitWorkflow, onSubmit, hv, hf, hc]

/-- Witness for C5: all credentials absent, and even a collaborator that
would throw is never consulted. -/
theorem submit_config_absent_witness :
    (submitWorkflow emptyConfig steveData ts0 .error []).2.outcome = .success ∧
    (submitWorkflow emptyConfig steveData ts0 .error []).2.deliveryAttempted = false ∧
    (submitWorkflow emptyConfig steveData ts0 .error []).2.log = [] ++ [backupEntry steveData ts0] ∧
    (submitWorkflow emptyConfig steveData ts0 .error []).2.formCleared = true :=
  submit_config_absent emptyConfig steveData ts0 .error [] (by decide) (by decide)

/-- C4: for every submission input violating any field constraint, the
workflow surfaces a field-level validation message and performs no side
effect: no remote delivery is attempted, nothing is appended to the backup
log, the form is not cleared and the run never leaves the invalid state. -/
theorem submit_invalid_rejected (cfg : EmailConfig) (d : FormData) (now : String)
    (delivery : DeliveryResult) (log : List BackupEntry) (h : fieldErrors d ≠ []) :
    (submitWorkflow cfg d now delivery log).1 = fieldErrors d ∧
    (submitWorkflow cfg d now delivery log).1 ≠ [] ∧
    (submitWorkflow cfg d now delivery log).2.outcome = .invalid ∧
    (submitWorkflow cfg d now delivery log).2.log = log ∧
    (submitWorkflow cfg d now delivery log).2.deliveryAttempted = false ∧
    (submitWorkflow cfg d now delivery log).2.formCleared = false := by
  obtain ⟨a, l, hfe⟩ := List.exists_cons_of_ne_nil h
  simp [submitWorkflow, hfe]

/-- Witness for C4 at the spec's invalid test vector (empty name). -/
theorem submit_invalid_rejected_witness :
    (submitWorkflow fullConfig invalidData ts0 .ok []).1 = fieldErrors invalidData ∧
    (submitWorkflow fullConfig invalidData ts0 .ok []).1 ≠ [] ∧
    (submitWorkflow fullConfig invalidData ts0 .ok []).2.outcome = .invalid ∧
    (submitWorkflow fullConfig invalidData ts0 .ok []).2.log = [] ∧
    (submitWorkflow fullConfig invalidData ts0 .ok []).2.deliveryAttempted = false ∧
    (submitWorkflow fullConfig invalidData ts0 .ok []).2.formCleared = false :=
  submit_invalid_rejected fullConfig invalidData ts0 .ok [] (by decide)

/-- C7: the backup log is append-only. Whatever the input, configuration and
delivery outcome, the log the workflow leaves behind is the prior log plus at
most one appended entry: every existing entry is preserved unchanged, in its
original order, as a prefix of the new log. -/
theorem backupLog_appendOnly (cfg : EmailConfig) (d : FormData) (now : String)
    (delivery : DeliveryResult) (log : List BackupEntry) :
    ∃ tail, (submitWorkflow cfg d now delivery log).2.log = log ++ tail ∧
      tail.length ≤ 1 := by
  cases hfe : fieldErrors d with
  | cons a l => exact ⟨[], by simp [submitWorkflow, hfe]⟩
  | nil =>
    cases hf : hasFalsyField d with
    | true => exact ⟨[], by simp [submitWorkflow, onSubmit, hfe, hf]⟩
    | false =>
      cases hd : (!configMissing cfg && delivery == DeliveryResult.error) with
      | true => exact ⟨[], by simp [submitWorkflow, onSubmit, hfe, hf, hd]⟩
      | false => exact ⟨[backupEntry d now], by simp [submitWorkflow, onSubmit, hfe, hf, hd]⟩

/-- C6 counterexample: "toString" is not a key of the registry, yet the page
does not get the placeholder — JS bracket lookup hits the inherited, truthy
`Object.prototype.toString`, the `||` never fires, and the value the page
renders has no title at all (reading `.title` yields `undefined`). -/
theorem eventDataAt_toString_cex :
    eventDetailsData.lookup "toString" = none ∧
    eventDataAt "toString" = JsLookup.inherited "toString" ∧
    eventDataAt "toString" ≠ JsLookup.record notFoundEvent ∧
    titleOf (eventDataAt "toString") = none := by
  decide

/-- C6 (amended): for every unknown event slug that is not the name of an
inherited `Object.prototype` member, the detail lookup returns the fixed
well-formed placeholder record with title "Event Not Found" and placeholder
body text, and the page renders that placeholder normally; for an unknown
slug that IS such a member name the lookup yields the truthy inherited value
instead and the placeholder is not substituted. -/
theorem eventDataAt_unknown (s : String) (h : eventDetailsData.lookup s = none)
    (hp : s ∉ objectPrototypeMembers) :
    eventDataAt s = JsLookup.record notFoundEvent ∧
    titleOf (eventDataAt s) = some "Event Not Found" ∧
    descriptionOf (eventDataAt s) = some "Event details not available." := by
  have he : getBySlug s = notFoundEvent := by simp [getBySlug, h]
  rw [eventDataAt_eq_getBySlug s hp, he]
  exact ⟨rfl, rfl, rfl⟩

/-- Witness for the amended C6 at a concrete unknown, non-member slug. -/
theorem eventDataAt_unknown_witness :
    eventDataAt "creeper" = JsLookup.record notFoundEvent ∧
    titleOf (eventDataAt "creeper") = some "Event Not Found" ∧
    descriptionOf (eventDataAt "creeper") = some "Event details not available." :=
  eventDataAt_unknown "creeper" (by decide) (by decide)

/-- C8: for every key of the event-details registry, looking the slug up
yields that record, its title is the uppercase form of the slug key, and the
events list has a matching entry with the same slug carrying the same
title. -/
theorem getBySlug_known (s : String) (r : EventDetail) (h : (s, r) ∈ eventDetailsData) :
    getBySlug s = r ∧
    r.title = some (upperSlug s) ∧
    ∃ e, e ∈ events ∧ e.slug = s ∧ r.title = some e.title := by
  simp only [eventDetailsData, List.mem_cons, List.not_mem_nil, or_false,
    Prod.mk.injEq] at h
  rcases h with ⟨hs, hr⟩ | ⟨hs, hr⟩ | ⟨hs, hr⟩ | ⟨hs, hr⟩ <;> subst hs <;> subst hr
  · exact ⟨rfl, rfl, robodriveInfo, by simp [events], rfl, rfl⟩
  · exact ⟨rfl, rfl, skycircuitInfo, by simp [events], rfl, rfl⟩
  · exact ⟨rfl, rfl, hackTheThroneInfo, by simp [events], rfl, rfl⟩
  · exact ⟨rfl, rfl, arenaxInfo, by simp [events], rfl, rfl⟩

/-- Witness for C8 at the "robodrive" registry entry. -/
theorem getBySlug_known_witness :
    getBySlug "robodrive" = robodriveDetail ∧
    robodriveDetail.title = some (upperSlug "robodrive") ∧
    ∃ e, e ∈ events ∧ e.slug = "robodrive" ∧ robodriveDetail.title = some e.title :=
  getBySlug_known "robodrive" robodriveDetail (by simp [eventDetailsData])

/-- C10 counterexample: at the path parameter "hasOwnProperty" (an unknown
slug that names an inherited `Object.prototype` member) the value the page
obtains is the inherited function, its `tags` read yields `undefined`, and
`eventData.tags.map` at `EventDetails.jsx` line 164 throws — the displayed
fields are not total. -/
theorem eventData_total_cex :
    eventDetailsData.lookup "hasOwnProperty" = none ∧
    eventDataAt "hasOwnProperty" = JsLookup.inherited "hasOwnProperty" ∧
    tagsOf (eventDataAt "hasOwnProperty") = none ∧
    titleOf (eventDataAt "hasOwnProperty") = none := by
  decide

/-- C10 (amended): for every path parameter string that is not the name of
an inherited `Object.prototype` member, the value the page obtains is a
record (a registry entry or the placeholder) that is total in its displayed
fields — title, tags (a list, possibly empty), description, fullDescription,
eventDate, teamSize, venue, contact and registerLink are all defined — so
field accesses during render, in particular mapping over `tags`, never hit
an undefined value; at a member name the obtained value defines none of
these fields. -/
theorem eventData_total_fields (s : String) (hp : s ∉ objectPrototypeMembers) :
    ∃ r : EventDetail, eventDataAt s = JsLookup.record r ∧
      r.title.isSome = true ∧
      r.tags.isSome = true ∧
      r.description.isSome = true ∧
      r.fullDescription.isSome = true ∧
      r.eventDate.isSome = true ∧
      r.teamSize.isSome = true ∧
      r.venue.isSome = true ∧
      r.contact.isSome = true ∧
      r.registerLink.isSome = true := by
  refine ⟨getBySlug s, eventDataAt_eq_getBySlug s hp, ?_⟩
  rcases getBySlug_cases s with h | h | h | h | h <;> rw [h] <;>
    exact ⟨rfl, rfl, rfl, rfl, rfl, rfl, rfl, rfl, rfl⟩

/-- Witness for the amended C10 at a concrete non-member path parameter. -/
theorem eventData_total_fields_witness :
    ∃ r : EventDetail, eventDataAt "robodrive" = JsLookup.record r ∧
      r.title.isSome = true ∧
      r.tags.isSome = true ∧
      r.description.isSome = true ∧
      r.fullDescription.isSome = true ∧
      r.eventDate.isSome = true ∧
      r.teamSize.isSome = true ∧
      r.venue.isSome = true ∧
      r.contact.isSome = true ∧
      r.registerLink.isSome = true :=
  eventData_total_fields "robodrive" (by decide)

/-- C9: submission state transitions are strictly linear per form instance
and no two submissions are ever in flight concurrently: the submit control is
disabled in every non-idle state, a click while it is disabled changes
nothing, and every step either stays put or follows one edge of
Idle→Submitting→{Success|Error}→Idle. -/
theorem submission_linear (s : SubState) (e : SubEvent) :
    (submitDisabled s = true → stepSub s .submitClick = s) ∧
    submitDisabled .submitting = true ∧
    submitDisabled .success = true ∧
    submitDisabled .error = true ∧
    submitDisabled .idle = false ∧
    (stepSub s e = s ∨
      (s = .idle ∧ e = .submitClick ∧ stepSub s e = .submitting) ∨
      (s = .submitting ∧ (stepSub s e = .success ∨ stepSub s e = .error)) ∨
      ((s = .success ∨ s = .error) ∧ e = .feedbackTimer ∧ stepSub s e = .idle)) := by
  cases s <;> cases e <;> simp [stepSub, submitDisabled]

/-- C2: for any sequence of navigation triggers from the initial page, the
emitted animation-phase trace is well sequenced: an enter phase starts only
at the instant the exit phase of the previously shown page signals
completion (never before it), no exit and enter phases overlap, and no two
enter phases are ever open concurrently. -/
theorem transitionSequencer_wait (start : String) (es : List NavEvent) :
    wellSequenced .nothingOpen (runSeq (.showing start) es).2 = true :=
  runSeq_wellSequenced es (.showing start)

end Meraki
